import Mathlib

/-!
Shallow embedding of the queue/worker/scheduler subsystem of
`itstheanurag/elysia-backend-express` (BullMQ-based background job queue).

Source files embedded:
- `src/core/queue/queue.client.ts` (getQueue, createWorker, registries)
- `src/core/queue/queue.types.ts` (payload types, DefaultJobOptions)
- `src/modules/queue/queues/{email,webhook,data,cron}.queue.ts` (producers)
- `src/modules/queue/workers/{cron,data}.worker.ts` (processors)
- `src/modules/queue/queue.service.ts` (admin operations)

Semantics supplied by the BullMQ library itself (not present in the
repository) are modelled from the spec; each such definition carries a
doc comment starting with `Modelled from the spec:`.
-/

namespace QueueSys

/-- Job status, from `queue.types.ts` `JobStatus`. -/
inductive JobStatus where
  | waiting
  | active
  | completed
  | failed
  | delayed
  | paused
  deriving DecidableEq, Repr

/-- Backoff policy, from the `backoff: \x7b type, delay \x7d` literals in
`queue.client.ts` and the producers. `btype` is the BullMQ backoff type
string, `delay` the base delay in milliseconds. -/
structure Backoff where
  btype : String
  delay : Nat
  deriving DecidableEq, Repr

/-- Retention bound, from the `removeOnComplete` / `removeOnFail`
literals: `\x7b count, age \x7d`. -/
structure Retention where
  count : Nat
  age : Nat
  deriving DecidableEq, Repr

/-- Job options as BullMQ receives them: each field optional, present
only when the call site supplies it. -/
structure JobOptions where
  attempts : Option Nat := none
  backoff : Option Backoff := none
  removeOnComplete : Option Retention := none
  removeOnFail : Option Retention := none
  priority : Option Nat := none
  delay : Option Nat := none
  jobId : Option String := none
  deriving DecidableEq, Repr

/-- The `DefaultJobOptions` constant from `queue.types.ts`: attempts 3,
exponential backoff with base 1000 ms, completed jobs retained up to
1000 / 24 h, failed jobs up to 5000 / 7 days. -/
def DefaultJobOptions : JobOptions :=
  { attempts := some 3
    backoff := some { btype := "exponential", delay := 1000 }
    removeOnComplete := some { count := 1000, age := 24 * 60 * 60 }
    removeOnFail := some { count := 5000, age := 7 * 24 * 60 * 60 } }

/-- The `defaultJobOptions` passed to `new Queue(...)` in
`queue.client.ts` `getQueue`: same values as `DefaultJobOptions`. -/
def queueClientDefaultJobOptions : JobOptions :=
  { attempts := some 3
    backoff := some { btype := "exponential", delay := 1000 }
    removeOnComplete := some { count := 1000, age := 24 * 60 * 60 }
    removeOnFail := some { count := 5000, age := 7 * 24 * 60 * 60 } }

/-- Queue names, from `queue.types.ts` `QueueNames`. -/
def QueueNames.EMAIL : String := "email"

def QueueNames.WEBHOOK : String := "webhook"

def QueueNames.DATA_PROCESSING : String := "data-processing"

def QueueNames.CRON : String := "cron"

/-- Producer-facing options: the `options?` parameter of
`addEmailJob` / `addWebhookJob` / `addDataJob`. -/
structure ProducerOptions where
  priority : Option Nat := none
  delay : Option Nat := none
  jobId : Option String := none
  deriving DecidableEq, Repr

/-- JavaScript `a || b` on an optional number: `undefined` and `0` are
falsy, so the right operand is used for both. This is the exact
semantics of `options?.priority || payload.priority` in
`data.queue.ts`. -/
def jsOrNum (a b : Option Nat) : Option Nat :=
  match a with
  | some v => if v = 0 then b else some v
  | none => b

/-- Email payload, from `queue.types.ts` `EmailJobPayload` (fields the
core reads; `payload` contents are opaque to the queue core). -/
structure EmailJobPayload where
  «to» : String
  subject : String
  body : String
  deriving DecidableEq, Repr

/-- Webhook payload, from `queue.types.ts` `WebhookJobPayload`. -/
structure WebhookJobPayload where
  url : String
  method : String
  timeout : Option Nat := none
  deriving DecidableEq, Repr

/-- Data-processing payload, from `queue.types.ts`
`DataProcessingJobPayload`. -/
structure DataProcessingJobPayload where
  type : String
  priority : Option Nat := none
  deriving DecidableEq, Repr

/-- The per-job options built by `addEmailJob` in the email producer:
`...DefaultJobOptions` spread, then priority / delay / jobId taken
directly from the caller's options. -/
def addEmailJobOptions (options : ProducerOptions) : JobOptions :=
  { DefaultJobOptions with
      priority := options.priority
      delay := options.delay
      jobId := options.jobId }

/-- The per-job options built by `addWebhookJob` in
`webhook.queue.ts`: `...DefaultJobOptions` spread, then
`attempts: 5` and `backoff: \x7b exponential, 5000 \x7d` override the
defaults, and priority / delay / jobId come from the caller. -/
def addWebhookJobOptions (options : ProducerOptions) : JobOptions :=
  { DefaultJobOptions with
      attempts := some 5
      backoff := some { btype := "exponential", delay := 5000 }
      priority := options.priority
      delay := options.delay
      jobId := options.jobId }

/-- The per-job options built by `addDataJob` in `data.queue.ts`:
`...DefaultJobOptions` spread, with
`priority: options?.priority || payload.priority` (JavaScript `||`,
so an explicit priority of 0 falls through to the payload's). -/
def addDataJobOptions (payload : DataProcessingJobPayload)
    (options : ProducerOptions) : JobOptions :=
  { DefaultJobOptions with
      priority := jsOrNum options.priority payload.priority
      delay := options.delay
      jobId := options.jobId }

/-- The per-job options built by `scheduleCronJob` in `cron.queue.ts`:
only `repeat`, `removeOnComplete` and `removeOnFail` are given; no
`attempts`, `backoff` or `priority` override. -/
def scheduleCronJobOptions : JobOptions :=
  { removeOnComplete := some { count := 100, age := 24 * 60 * 60 }
    removeOnFail := some { count := 500, age := 7 * 24 * 60 * 60 } }

/-- Modelled from the spec: the library merges the Queue's
`defaultJobOptions` with the per-job options, explicit per-job values
taking precedence ("Applies Queue's defaultJobOptions merged with
explicit overrides; explicit maxAttempts/backoff/priority take
precedence"). Missing from src/: the merge happens inside the BullMQ
`Queue.add` implementation. -/
def mergeJobOptions (queueDefaults jobOpts : JobOptions) : JobOptions :=
  { attempts := jobOpts.attempts.orElse fun _ => queueDefaults.attempts
    backoff := jobOpts.backoff.orElse fun _ => queueDefaults.backoff
    removeOnComplete :=
      jobOpts.removeOnComplete.orElse fun _ => queueDefaults.removeOnComplete
    removeOnFail :=
      jobOpts.removeOnFail.orElse fun _ => queueDefaults.removeOnFail
    priority := jobOpts.priority
    delay := jobOpts.delay
    jobId := jobOpts.jobId }

/-- Effective `maxAttempts` of a job enqueued with the given per-job
options on a queue created by `getQueue` (whose defaults supply
`attempts: 3` when the job has no override); absent both, BullMQ's own
default of 1 applies. -/
def effectiveAttempts (jobOpts : JobOptions) : Nat :=
  ((mergeJobOptions queueClientDefaultJobOptions jobOpts).attempts).getD 1

/-- Effective backoff policy of a job enqueued with the given per-job
options on a queue created by `getQueue`. -/
def effectiveBackoff (jobOpts : JobOptions) : Option Backoff :=
  (mergeJobOptions queueClientDefaultJobOptions jobOpts).backoff

/-- Modelled from the spec: retry-delay cap, "capped to a sane maximum
(e.g., 1 hour)" — one hour in milliseconds. Missing from src/: the
delay computation lives in the library's exponential backoff strategy. -/
def backoffCapMs : Nat := 60 * 60 * 1000

/-- Modelled from the spec: "actual retry delay =
baseDelayMs * 2^(attemptsMade-1), capped to a sane maximum (e.g., 1
hour)". `attemptsMade` counts the attempts already made, so the first
retry (attemptsMade = 1) waits the base delay. Missing from src/: the
computation lives in the BullMQ exponential backoff strategy. -/
def backoffDelay (baseDelayMs attemptsMade : Nat) : Nat :=
  min backoffCapMs (baseDelayMs * 2 ^ (attemptsMade - 1))

/-! ## Store model: jobs persisted in the external store, per queue. -/

/-- A persisted Job record (the fields the embedded operations read). -/
structure StoredJob where
  id : String
  typeName : String
  status : JobStatus
  attemptsMade : Nat
  finishedOn : Nat
  opts : JobOptions
  deriving DecidableEq, Repr

/-- The external store: an association of queue names to their job
lists (the BullMQ/Redis state the `queues` registry gives access to). -/
abbrev Store := List (String × List StoredJob)

/-- Append a job to the named queue's list, creating the queue entry if
absent (the store side of an enqueue). -/
def storeInsert : Store → String → StoredJob → Store
  | [], q, j => [(q, [j])]
  | (n, js) :: rest, q, j =>
    if n = q then (n, js ++ [j]) :: rest else (n, js) :: storeInsert rest q j

/-- Replace the named queue's job list (first matching entry). -/
def storeUpdate : Store → String → List StoredJob → Store
  | [], _, _ => []
  | (n, js) :: rest, q, newJs =>
    if n = q then (n, newJs) :: rest else (n, js) :: storeUpdate rest q newJs

/-- JavaScript `job.id || null` as the producers return it: an empty id
is falsy and maps to null. -/
def jsIdOrNull (id : String) : Option String :=
  if id = "" then none else some id

/-- Modelled from the spec: BullMQ `Queue.add` persists a new Job
record in the named queue — `delayed` when a delay is set, otherwise
`waiting`, with `attemptsMade` 0 — and returns its id: the
caller-supplied `jobId` when given, else a store-generated non-empty
id. Missing from src/: `Queue.add` is implemented by the BullMQ
library. -/
def queueAdd (st : Store) (qname typeName : String) (opts : JobOptions) :
    Store × String :=
  let id := opts.jobId.getD ("gen:" ++ typeName)
  let status :=
    if opts.delay.isSome then JobStatus.delayed else JobStatus.waiting
  let job : StoredJob :=
    { id := id, typeName := typeName, status := status,
      attemptsMade := 0, finishedOn := 0, opts := opts }
  (storeInsert st qname job, id)

/-! ## Producers (email, webhook, data): `addXJob` from the queue
modules. Availability is the `getQueue`/`getQueueConnection` check:
the queue handle is null exactly when no Redis URL is configured. -/

/-- The `addEmailJob` producer: null queue (no Redis URL) returns null
with no store effect; otherwise adds a `send-email` job with the
options of `addEmailJobOptions` and returns `job.id || null`. -/
def addEmailJob (redisUrl : Option String) (st : Store)
    (_payload : EmailJobPayload) (options : ProducerOptions) :
    Store × Option String :=
  match redisUrl with
  | none => (st, none)
  | some _ =>
    let (st', id) :=
      queueAdd st QueueNames.EMAIL "send-email" (addEmailJobOptions options)
    (st', jsIdOrNull id)

/-- The `addWebhookJob` producer: null queue returns null with no store
effect; otherwise adds a `deliver-webhook` job with the options of
`addWebhookJobOptions` (attempts 5, exponential backoff base 5000). -/
def addWebhookJob (redisUrl : Option String) (st : Store)
    (_payload : WebhookJobPayload) (options : ProducerOptions) :
    Store × Option String :=
  match redisUrl with
  | none => (st, none)
  | some _ =>
    let (st', id) :=
      queueAdd st QueueNames.WEBHOOK "deliver-webhook"
        (addWebhookJobOptions options)
    (st', jsIdOrNull id)

/-- The `addDataJob` producer: null queue returns null with no store
effect; otherwise adds a `process-<type>` job with the options of
`addDataJobOptions` (note the JavaScript `||` on priority). -/
def addDataJob (redisUrl : Option String) (st : Store)
    (payload : DataProcessingJobPayload) (options : ProducerOptions) :
    Store × Option String :=
  match redisUrl with
  | none => (st, none)
  | some _ =>
    let (st', id) :=
      queueAdd st QueueNames.DATA_PROCESSING ("process-" ++ payload.type)
        (addDataJobOptions payload options)
    (st', jsIdOrNull id)

/-! ## Worker processors and the retry loop. -/

/-- A registered handler: invoked with its (opaque) data, it either
returns or raises an error message. -/
abbrev Handler := Unit → Except String Unit

/-- Cron job payload, from `queue.types.ts` `CronJobPayload`. -/
structure CronJobPayload where
  name : String
  handler : String
  deriving DecidableEq, Repr

/-- The `processCronJob` processor from `cron.worker.ts`: looks the
handler name up in `cronHandlers`; when absent it throws
"No handler registered for cron job: ..." (a plain thrown Error, not a
terminal marker); when present it runs the handler and rethrows its
error. -/
def processCronJob (cronHandlers : List (String × Handler))
    (payload : CronJobPayload) : Except String Unit :=
  match cronHandlers.lookup payload.handler with
  | none =>
    Except.error ("No handler registered for cron job: " ++ payload.handler)
  | some h => h ()

/-- The `processDataJob` processor from `data.worker.ts`: looks
`payload.type` up in `dataHandlers`; when absent it throws
"No handler registered for data type: ..."; when present it runs the
handler and rethrows its error. -/
def processDataJob (dataHandlers : List (String × Handler))
    (payload : DataProcessingJobPayload) : Except String Unit :=
  match dataHandlers.lookup payload.type with
  | none =>
    Except.error ("No handler registered for data type: " ++ payload.type)
  | some h => h ()

/-- Outcome of driving one job to a terminal state. -/
inductive JobOutcome where
  | completed (attemptsMade : Nat)
  | failed (attemptsMade : Nat) (failedReason : String)
  deriving DecidableEq, Repr

/-- Modelled from the spec: the Worker Runtime loop of §4.3. The
processor runs with the current `attemptsMade`; on success the job
completes; on an error with attempts remaining the job is re-armed and
re-attempted after the backoff delay; once `attemptsMade` reaches
`maxAttempts` the job becomes `failed` with the error recorded as
`failedReason`. Every processor error is treated uniformly — there is
no special terminal-on-first-error path. Missing from src/: the loop is
the BullMQ Worker implementation. -/
def runRetryLoop (processor : Nat → Except String Unit) :
    Nat → Nat → JobOutcome
  | made, 0 => JobOutcome.failed made "maxAttempts exhausted"
  | made, fuel + 1 =>
    match processor made with
    | Except.ok _ => JobOutcome.completed (made + 1)
    | Except.error e =>
      if fuel = 0 then JobOutcome.failed (made + 1) e
      else runRetryLoop processor (made + 1) fuel

/-- Run a fresh job (no attempts made yet) under the given
`maxAttempts` budget. -/
def runJob (processor : Nat → Except String Unit) (maxAttempts : Nat) :
    JobOutcome :=
  runRetryLoop processor 0 maxAttempts

/-! ## Worker registry: `createWorker` from `queue.client.ts`. -/

/-- An in-process Worker instance as the registry tracks it: the queue
it consumes and its concurrency. `processorId` distinguishes which
processor it was constructed with. -/
structure WorkerHandle where
  queueName : String
  concurrency : Nat
  processorId : Nat
  deriving DecidableEq, Repr

/-- The `createWorker` function: null connection returns null; an
existing worker for the name is returned unchanged ("Worker already
exists, returning existing"); otherwise a new worker is constructed
with `concurrency || env.QUEUE_CONCURRENCY` (JavaScript `||`) and
registered under the name. Returns the updated registry and the
worker. -/
def createWorker (redisUrl : Option String)
    (workers : List (String × WorkerHandle)) (name : String)
    (processorId : Nat) (concurrency : Option Nat)
    (envConcurrency : Nat) :
    List (String × WorkerHandle) × Option WorkerHandle :=
  match redisUrl with
  | none => (workers, none)
  | some _ =>
    match workers.lookup name with
    | some w => (workers, some w)
    | none =>
      let c :=
        match concurrency with
        | some v => if v = 0 then envConcurrency else v
        | none => envConcurrency
      let w : WorkerHandle :=
        { queueName := name, concurrency := c, processorId := processorId }
      (workers ++ [(name, w)], some w)

/-! ## Admin operations: `queue.service.ts`. Each store round-trip may
raise a transient error; the parameter `err` is `some msg` when the
store raises on this call, `none` when it succeeds — the service
functions' try/catch handling of it is embedded exactly. -/

/-- Queue stats, from `queue.types.ts` `QueueStats`. -/
structure QueueStats where
  name : String
  waiting : Nat
  active : Nat
  completed : Nat
  failed : Nat
  delayed : Nat
  paused : Nat
  deriving DecidableEq, Repr

/-- Number of jobs with the given status in a job list. -/
def countStatus (jobs : List StoredJob) (s : JobStatus) : Nat :=
  (jobs.filter fun j => j.status = s).length

/-- Modelled from the spec: `queue.getJobCounts()` returns the per
status counts of the queue's jobs, or raises the store's transient
error. Missing from src/: getJobCounts is a BullMQ method. -/
def getJobCounts (err : Option String) (name : String)
    (jobs : List StoredJob) : Except String QueueStats :=
  match err with
  | some e => Except.error e
  | none =>
    Except.ok
      { name := name
        waiting := countStatus jobs JobStatus.waiting
        active := countStatus jobs JobStatus.active
        completed := countStatus jobs JobStatus.completed
        failed := countStatus jobs JobStatus.failed
        delayed := countStatus jobs JobStatus.delayed
        paused := countStatus jobs JobStatus.paused }

/-- All-zero stats record for a queue name (what the catch branch of
`getAllQueueStats` pushes). -/
def zeroStats (name : String) : QueueStats :=
  { name := name, waiting := 0, active := 0, completed := 0, failed := 0,
    delayed := 0, paused := 0 }

/-- The `getAllQueueStats` service function: for each registered queue
it fetches the job counts; a store error on a queue is caught, logged,
and replaced by an all-zero stats record for that queue. -/
def getAllQueueStats (err : Option String) (st : Store) : List QueueStats :=
  st.map fun nq =>
    match getJobCounts err nq.1 nq.2 with
    | Except.error _ => zeroStats nq.1
    | Except.ok s => s

/-- Modelled from the spec: `queue.getJobs([status])` returns the
queue's jobs in the given statuses, or raises the store's transient
error. Missing from src/: getJobs is a BullMQ method. -/
def getJobsByStatus (err : Option String) (jobs : List StoredJob)
    (statuses : List JobStatus) : Except String (List StoredJob) :=
  match err with
  | some e => Except.error e
  | none => Except.ok (jobs.filter fun j => decide (j.status ∈ statuses))

/-- Modelled from the spec: `job.retry()` re-arms a failed job back to
`waiting` with `attemptsMade` reset to 0 ("re-arms every failed job in
the queue back to waiting with attemptsMade reset to 0"). Missing from
src/: Job.retry is a BullMQ method. -/
def jobRetry (j : StoredJob) : StoredJob :=
  { j with status := JobStatus.waiting, attemptsMade := 0 }

/-- The `retryFailedJobs` service function: unknown queue returns 0;
otherwise fetch the queue's failed jobs, retry each one and count them;
a store error is caught, logged, and the function returns 0. -/
def retryFailedJobs (err : Option String) (st : Store) (name : String) :
    Store × Nat :=
  match st.lookup name with
  | none => (st, 0)
  | some jobs =>
    match getJobsByStatus err jobs [JobStatus.failed] with
    | Except.error _ => (st, 0)
    | Except.ok failedJobs =>
      let newJobs :=
        jobs.map fun j =>
          if j.status = JobStatus.failed then jobRetry j else j
      (storeUpdate st name newJobs, failedJobs.length)

/-- Eligibility test of the store's clean operation: the job is in the
requested terminal status and finished at least `olderThanMs` ms before
`now`. -/
def cleanEligible (status : JobStatus) (olderThanMs now : Nat)
    (j : StoredJob) : Bool :=
  decide (j.status = status ∧ j.finishedOn + olderThanMs ≤ now)

/-- Modelled from the spec: the store's clean primitive removes up to
`limit` jobs satisfying the eligibility test, keeping the rest, and
reports how many were removed. Missing from src/: `queue.clean` is a
BullMQ lua script. -/
def cleanJobs : Nat → (StoredJob → Bool) → List StoredJob →
    List StoredJob × Nat
  | _, _, [] => ([], 0)
  | 0, _, js => (js, 0)
  | limit + 1, p, j :: rest =>
    if p j then
      ((cleanJobs limit p rest).1, (cleanJobs limit p rest).2 + 1)
    else
      (j :: (cleanJobs (limit + 1) p rest).1, (cleanJobs (limit + 1) p rest).2)

/-- The `cleanQueue` service function: unknown queue returns 0;
otherwise `queue.clean(olderThanMs, 1000, status)` — note the removal
limit of 1000 per call in the source — and the removed count is
returned; a store error is caught, logged, and the function
returns 0. -/
def cleanQueue (err : Option String) (st : Store) (name : String)
    (status : JobStatus) (olderThanMs now : Nat) : Store × Nat :=
  match st.lookup name with
  | none => (st, 0)
  | some jobs =>
    match err with
    | some _ => (st, 0)
    | none =>
      let (js', n) :=
        cleanJobs 1000 (cleanEligible status olderThanMs now) jobs
      (storeUpdate st name js', n)

/-! ## Cron scheduler: `cron.queue.ts`. -/

/-- The `schedule` argument of `scheduleCronJob`: every / pattern / tz /
limit, each optional. -/
structure CronSchedule where
  every : Option Nat := none
  pattern : Option String := none
  tz : Option String := none
  limit : Option Nat := none
  deriving DecidableEq, Repr

/-- BullMQ `RepeatOptions` as `scheduleCronJob` builds them. -/
structure RepeatOptions where
  every : Option Nat := none
  pattern : Option String := none
  tz : Option String := none
  limit : Option Nat := none
  deriving DecidableEq, Repr

/-- JavaScript truthiness of an optional number: present and nonzero. -/
def jsTruthyNat (a : Option Nat) : Option Nat :=
  match a with
  | some v => if v = 0 then none else some v
  | none => none

/-- JavaScript truthiness of an optional string: present and
non-empty. -/
def jsTruthyStr (a : Option String) : Option String :=
  match a with
  | some s => if s = "" then none else some s
  | none => none

/-- The `repeatOptions` object built by `scheduleCronJob`: each field is
copied only when truthy (`if (schedule.every) ...` etc.). -/
def buildRepeatOptions (schedule : CronSchedule) : RepeatOptions :=
  { every := jsTruthyNat schedule.every
    pattern := jsTruthyStr schedule.pattern
    tz := jsTruthyStr schedule.tz
    limit := jsTruthyNat schedule.limit }

/-- A recurring-job definition held by the store (the spec's
SchedulerEntry). -/
structure SchedulerEntry where
  name : String
  repeatOpts : RepeatOptions
  deriving DecidableEq, Repr

/-- The `scheduleCronJob` function: null queue (no Redis URL) logs and
returns null; a name with no registered cron handler logs "No handler
registered for cron job, skipping schedule" and returns null — in both
cases no scheduler entry and no job is created. Otherwise
`queue.add(name, payload, \x7b repeat, ... \x7d)` creates the repeating
definition plus its first (delayed) occurrence job in the cron queue,
and the function returns `job.id || null`; the add with `repeat` is
modelled from the spec as producing the scheduler entry and a
store-generated id `repeat:<name>` (BullMQ repeatable-job ids are
non-empty generated strings). -/
def scheduleCronJob (redisUrl : Option String)
    (cronHandlers : List (String × Handler)) (st : Store)
    (schedulers : List SchedulerEntry) (name : String)
    (schedule : CronSchedule) :
    Store × List SchedulerEntry × Option String :=
  match redisUrl with
  | none => (st, schedulers, none)
  | some _ =>
    match cronHandlers.lookup name with
    | none => (st, schedulers, none)
    | some _ =>
      let entry : SchedulerEntry :=
        { name := name, repeatOpts := buildRepeatOptions schedule }
      let id := "repeat:" ++ name
      let job : StoredJob :=
        { id := id, typeName := name, status := JobStatus.delayed,
          attemptsMade := 0, finishedOn := 0,
          opts := scheduleCronJobOptions }
      (storeInsert st QueueNames.CRON job, schedulers ++ [entry],
        jsIdOrNull id)

/-! ## Helper lemmas. -/

/-- Driving the retry loop with a processor that fails on every attempt
consumes the whole fuel and fails with the processor's reason. -/
theorem runRetryLoop_all_fail (processor : Nat → Except String Unit)
    (reason : String) (hfail : ∀ n, processor n = Except.error reason) :
    ∀ fuel, fuel ≠ 0 → ∀ made, runRetryLoop processor made fuel =
      JobOutcome.failed (made + fuel) reason := by
  intro fuel
  induction fuel using Nat.strong_induction_on with
  | _ fuel ih =>
    match fuel with
    | 0 => exact fun h => absurd rfl h
    | 1 => intro _ made; simp [runRetryLoop, hfail]
    | k + 2 =>
      intro _ made
      simp only [runRetryLoop, hfail, Nat.succ_ne_zero, if_false]
      by_cases hk : k = 0
      · subst hk
        simp only [if_true]
      · rw [if_neg hk, ih k (by omega) hk (made + 1 + 1)]
        congr 1
        omega

/-- Updating a queue's job list leaves lookups of other names
unchanged. -/
theorem lookup_storeUpdate_ne (st : Store) (q m : String)
    (js : List StoredJob) (h : m ≠ q) :
    (storeUpdate st q js).lookup m = st.lookup m := by
  induction st with
  | nil => simp [storeUpdate]
  | cons hd tl ih =>
    by_cases hq : hd.1 = q
    · simp only [storeUpdate, hq, if_true, List.lookup]
      have : (m == q) = false := by simp [h]
      simp [this, hq]
    · simp only [storeUpdate, hq, if_false, List.lookup]
      by_cases hm : m == hd.1 <;> simp [hm, ih]

/-- Updating a queue's job list makes lookup of that name return the
new list, provided the queue was present. -/
theorem lookup_storeUpdate_self (st : Store) (q : String)
    (js0 js : List StoredJob) (h : st.lookup q = some js0) :
    (storeUpdate st q js).lookup q = some js := by
  induction st with
  | nil => simp [List.lookup] at h
  | cons hd tl ih =>
    by_cases hq : hd.1 = q
    · simp [storeUpdate, hq, List.lookup]
    · have hne : (q == hd.1) = false := by
        simp only [beq_eq_false_iff_ne, ne_eq]
        exact fun hh => hq hh.symm
      simp only [List.lookup, hne] at h
      simp [storeUpdate, hq, List.lookup, hne, ih h]

/-- A name on which `lookup` returns `none` is not among the keys. -/
theorem lookup_none_not_key {β : Type} (l : List (String × β)) (a : String)
    (h : l.lookup a = none) : a ∉ l.map Prod.fst := by
  induction l with
  | nil => simp
  | cons hd tl ih =>
    simp only [List.lookup] at h
    by_cases he : a == hd.1
    · simp [he] at h
    · have : a ≠ hd.1 := by simpa using he
      simp only [List.map_cons, List.mem_cons, this, false_or]
      exact ih (by simpa [he] using h)

/-! ## C1 — retry backoff delay. -/

/-- C1: for every job options record produced by one of the four
producers (email, webhook, data-processing, cron), the effective
backoff policy is exponential with some base, and the retry delay
equals min(cap, baseDelayMs * 2^(attemptsMade-1)) with the cap of one
hour, non-decreasing across successive attempts. -/
theorem retry_delay_formula_and_monotone
    (payload : DataProcessingJobPayload) (options : ProducerOptions)
    (jo : JobOptions)
    (hjo : jo = addEmailJobOptions options ∨
           jo = addWebhookJobOptions options ∨
           jo = addDataJobOptions payload options ∨
           jo = scheduleCronJobOptions)
    (b : Backoff) (hb : effectiveBackoff jo = some b)
    (a a' : Nat) (h : a ≤ a') :
    b.btype = "exponential" ∧
    backoffDelay b.delay a =
      min (60 * 60 * 1000) (b.delay * 2 ^ (a - 1)) ∧
    backoffDelay b.delay a ≤ backoffDelay b.delay a' := by
  refine ⟨?_, rfl, ?_⟩
  · rcases hjo with h1 | h1 | h1 | h1 <;> subst h1 <;>
      simp [effectiveBackoff, mergeJobOptions, addEmailJobOptions,
        addWebhookJobOptions, addDataJobOptions, scheduleCronJobOptions,
        DefaultJobOptions, queueClientDefaultJobOptions,
        Option.orElse] at hb <;> simp [← hb]
  · unfold backoffDelay
    exact min_le_min le_rfl
      (Nat.mul_le_mul le_rfl
        (Nat.pow_le_pow_right (by norm_num) (by omega)))

/-- C1 witness: the default email-producer policy (exponential, base
1000 ms) at attempts 1 ≤ 2. -/
theorem retry_delay_formula_and_monotone_witness :
    (Backoff.mk "exponential" 1000).btype = "exponential" ∧
    backoffDelay (Backoff.mk "exponential" 1000).delay 1 =
      min (60 * 60 * 1000) ((Backoff.mk "exponential" 1000).delay * 2 ^ (1 - 1)) ∧
    backoffDelay (Backoff.mk "exponential" 1000).delay 1 ≤
      backoffDelay (Backoff.mk "exponential" 1000).delay 2 :=
  retry_delay_formula_and_monotone ⟨"export", none⟩ ⟨none, none, none⟩
    (addEmailJobOptions ⟨none, none, none⟩) (Or.inl rfl)
    (Backoff.mk "exponential" 1000) rfl 1 2 (by norm_num)

/-! ## C3 — producers degrade to null when the queue is unavailable. -/

/-- C3: with no Redis URL configured (queue unavailable), each producer
enqueue returns null, does not throw, and leaves the store untouched. -/
theorem producers_null_when_unavailable (st : Store)
    (pe : EmailJobPayload) (pw : WebhookJobPayload)
    (pd : DataProcessingJobPayload) (o : ProducerOptions) :
    addEmailJob none st pe o = (st, none) ∧
    addWebhookJob none st pw o = (st, none) ∧
    addDataJob none st pd o = (st, none) :=
  ⟨rfl, rfl, rfl⟩

/-! ## C4 — default maxAttempts 3, webhook 5. -/

/-- C4: jobs enqueued by the email, data and cron producers (none of
which lets the caller override attempts) get effective maxAttempts 3;
webhook jobs get 5; and a webhook job whose handler fails on every
attempt ends failed with attemptsMade = 5. -/
theorem max_attempts_defaults (pd : DataProcessingJobPayload)
    (o : ProducerOptions) (processor : Nat → Except String Unit)
    (reason : String) (hfail : ∀ n, processor n = Except.error reason) :
    effectiveAttempts (addEmailJobOptions o) = 3 ∧
    effectiveAttempts (addDataJobOptions pd o) = 3 ∧
    effectiveAttempts scheduleCronJobOptions = 3 ∧
    effectiveAttempts (addWebhookJobOptions o) = 5 ∧
    runJob processor (effectiveAttempts (addWebhookJobOptions o)) =
      JobOutcome.failed 5 reason := by
  refine ⟨rfl, rfl, rfl, rfl, ?_⟩
  have h5 : effectiveAttempts (addWebhookJobOptions o) = 5 := rfl
  rw [h5, runJob]
  have := runRetryLoop_all_fail processor reason hfail 5 (by norm_num) 0
  simpa using this

/-- C4 witness: concrete producers' options and an always-failing
handler (HTTP 500 on every delivery). -/
theorem max_attempts_defaults_witness :
    effectiveAttempts (addEmailJobOptions ⟨none, none, none⟩) = 3 ∧
    effectiveAttempts (addDataJobOptions ⟨"export", none⟩ ⟨none, none, none⟩) = 3 ∧
    effectiveAttempts scheduleCronJobOptions = 3 ∧
    effectiveAttempts (addWebhookJobOptions ⟨none, none, none⟩) = 5 ∧
    runJob (fun _ => Except.error "HTTP 500")
      (effectiveAttempts (addWebhookJobOptions ⟨none, none, none⟩)) =
      JobOutcome.failed 5 "HTTP 500" :=
  max_attempts_defaults ⟨"export", none⟩ ⟨none, none, none⟩
    (fun _ => Except.error "HTTP 500") "HTTP 500" (fun _ => rfl)

/-! ## C7 — missing-handler failures are retried like any failure. -/

/-- C7: when the handler name is absent from the registry, the cron and
data processors raise a "No handler registered" error (an ordinary
thrown error), and the worker retry loop treats it like any transient
failure: the job fails terminally only after the full maxAttempts
budget, with attemptsMade = maxAttempts, not on the first attempt. -/
theorem no_handler_error_retried (ch dh : List (String × Handler))
    (pc : CronJobPayload) (pd : DataProcessingJobPayload)
    (maxAttempts : Nat) (hc : ch.lookup pc.handler = none)
    (hd : dh.lookup pd.type = none) (hm : maxAttempts ≠ 0) :
    processCronJob ch pc =
      Except.error ("No handler registered for cron job: " ++ pc.handler) ∧
    processDataJob dh pd =
      Except.error ("No handler registered for data type: " ++ pd.type) ∧
    runJob (fun _ => processCronJob ch pc) maxAttempts =
      JobOutcome.failed maxAttempts
        ("No handler registered for cron job: " ++ pc.handler) ∧
    runJob (fun _ => processDataJob dh pd) maxAttempts =
      JobOutcome.failed maxAttempts
        ("No handler registered for data type: " ++ pd.type) := by
  have h1 : processCronJob ch pc =
      Except.error ("No handler registered for cron job: " ++ pc.handler) := by
    simp [processCronJob, hc]
  have h2 : processDataJob dh pd =
      Except.error ("No handler registered for data type: " ++ pd.type) := by
    simp [processDataJob, hd]
  refine ⟨h1, h2, ?_, ?_⟩
  · have := runRetryLoop_all_fail (fun _ => processCronJob ch pc) _
      (fun _ => h1) maxAttempts hm 0
    simpa [runJob] using this
  · have := runRetryLoop_all_fail (fun _ => processDataJob dh pd) _
      (fun _ => h2) maxAttempts hm 0
    simpa [runJob] using this

/-- C7 witness: empty registries, a cron job named daily-report and a
data job of type export, with the default maxAttempts of 3. -/
theorem no_handler_error_retried_witness :
    processCronJob [] ⟨"daily-report", "daily-report"⟩ =
      Except.error ("No handler registered for cron job: " ++ "daily-report") ∧
    processDataJob [] ⟨"export", none⟩ =
      Except.error ("No handler registered for data type: " ++ "export") ∧
    runJob (fun _ => processCronJob [] ⟨"daily-report", "daily-report"⟩) 3 =
      JobOutcome.failed 3
        ("No handler registered for cron job: " ++ "daily-report") ∧
    runJob (fun _ => processDataJob [] ⟨"export", none⟩) 3 =
      JobOutcome.failed 3
        ("No handler registered for data type: " ++ "export") :=
  no_handler_error_retried [] [] ⟨"daily-report", "daily-report"⟩
    ⟨"export", none⟩ 3 rfl rfl (by norm_num)

/-! ## C8 — explicit priority versus JavaScript falsiness of 0. -/

/-- C8 counterexample: with an explicit `options.priority = 0` and a
payload priority of 5, `addDataJob` gives the created job priority 5,
not the explicitly supplied 0 — `options?.priority || payload.priority`
treats 0 as falsy. -/
theorem addDataJob_priority_zero_cex :
    (addDataJobOptions { type := "export", priority := some 5 }
        { priority := some 0, delay := none, jobId := none }).priority
      = some 5 ∧
    (addDataJobOptions { type := "export", priority := some 5 }
        { priority := some 0, delay := none, jobId := none }).priority
      ≠ some 0 := by
  refine ⟨rfl, ?_⟩
  decide

/-- C8 amended: an explicitly supplied nonzero `options.priority` takes
precedence over `payload.priority`; an explicit 0 (or an absent
options.priority) falls back to the payload-derived value. -/
theorem addDataJob_priority_amended (payload : DataProcessingJobPayload)
    (options : ProducerOptions) (p : Nat)
    (hp : options.priority = some p) (hnz : p ≠ 0) :
    (addDataJobOptions payload options).priority = some p ∧
    (addDataJobOptions payload
        { options with priority := some 0 }).priority = payload.priority ∧
    (addDataJobOptions payload
        { options with priority := none }).priority = payload.priority := by
  refine ⟨?_, ?_, ?_⟩ <;> simp [addDataJobOptions, jsOrNum, hp, hnz]

/-- C8 amended witness: nonzero explicit priority 7 over payload
priority 5, and the zero / absent fallbacks. -/
theorem addDataJob_priority_amended_witness :
    (addDataJobOptions ⟨"export", some 5⟩
        ⟨some 7, none, none⟩).priority = some 7 ∧
    (addDataJobOptions ⟨"export", some 5⟩
        { (⟨some 7, none, none⟩ : ProducerOptions) with
            priority := some 0 }).priority = some 5 ∧
    (addDataJobOptions ⟨"export", some 5⟩
        { (⟨some 7, none, none⟩ : ProducerOptions) with
            priority := none }).priority = some 5 :=
  addDataJob_priority_amended ⟨"export", some 5⟩ ⟨some 7, none, none⟩ 7
    rfl (by norm_num)

/-! ## C10 — one worker per queue name. -/

/-- C10: with a connection configured, `createWorker` on a name that
already has a worker returns that worker and leaves the registry
unchanged; and for any registry with pairwise-distinct names,
`createWorker` preserves that distinctness, so the registry maps each
queue name to exactly one worker. -/
theorem createWorker_existing_and_unique (url : String)
    (workers : List (String × WorkerHandle)) (name : String) (pid : Nat)
    (conc : Option Nat) (envC : Nat) (w : WorkerHandle)
    (hw : workers.lookup name = some w) :
    createWorker (some url) workers name pid conc envC =
      (workers, some w) ∧
    ∀ (ws : List (String × WorkerHandle)) (n : String),
      (ws.map Prod.fst).Nodup →
      (((createWorker (some url) ws n pid conc envC).1).map
        Prod.fst).Nodup := by
  constructor
  · simp [createWorker, hw]
  · intro ws n hnodup
    cases hl : ws.lookup n with
    | some w' => simpa [createWorker, hl] using hnodup
    | none =>
      have hnot := lookup_none_not_key ws n hl
      simp only [createWorker, hl]
      rw [List.map_append]
      simp [List.nodup_append, hnodup, hnot]

/-- C10 witness: a registry holding one email worker; re-creating the
email worker returns it unchanged, and creating a webhook worker keeps
names distinct. -/
theorem createWorker_existing_and_unique_witness :
    createWorker (some "redis://localhost")
        [("email", WorkerHandle.mk "email" 5 0)] "email" 1 none 5 =
      ([("email", WorkerHandle.mk "email" 5 0)],
        some (WorkerHandle.mk "email" 5 0)) ∧
    (((createWorker (some "redis://localhost")
        [("email", WorkerHandle.mk "email" 5 0)] "webhook" 1 none 5).1).map
      Prod.fst).Nodup :=
  ⟨(createWorker_existing_and_unique "redis://localhost"
      [("email", WorkerHandle.mk "email" 5 0)] "email" 1 none 5
      (WorkerHandle.mk "email" 5 0) (by decide)).1,
   (createWorker_existing_and_unique "redis://localhost"
      [("email", WorkerHandle.mk "email" 5 0)] "email" 1 none 5
      (WorkerHandle.mk "email" 5 0) (by decide)).2
      [("email", WorkerHandle.mk "email" 5 0)] "webhook" (by decide)⟩

/-! ## C6 — scheduleCronJob fails fast without a handler. -/

/-- C6: `scheduleCronJob` returns null and creates neither a scheduler
entry nor a job when the queue is unavailable or no handler is
registered under the name; with a handler registered and the queue
available it creates the repeating definition (plus its first delayed
occurrence) and returns a non-null id. -/
theorem scheduleCronJob_fail_fast (redisUrl : Option String)
    (ch : List (String × Handler)) (st : Store)
    (schedulers : List SchedulerEntry) (name : String)
    (schedule : CronSchedule) :
    ((redisUrl = none ∨ ch.lookup name = none) →
      scheduleCronJob redisUrl ch st schedulers name schedule =
        (st, schedulers, none)) ∧
    (∀ url h, redisUrl = some url → ch.lookup name = some h →
      scheduleCronJob redisUrl ch st schedulers name schedule =
        (storeInsert st QueueNames.CRON
          { id := "repeat:" ++ name, typeName := name,
            status := JobStatus.delayed, attemptsMade := 0,
            finishedOn := 0, opts := scheduleCronJobOptions },
         schedulers ++
           [{ name := name, repeatOpts := buildRepeatOptions schedule }],
         some ("repeat:" ++ name))) := by
  constructor
  · rintro (h | h)
    · subst h; rfl
    · cases redisUrl with
      | none => rfl
      | some url => simp [scheduleCronJob, h]
  · intro url h hu hh
    subst hu
    have hne : ("repeat:" ++ name) ≠ "" := by
      intro hcontr
      have hlen := congrArg String.length hcontr
      simp [String.length_append, String.length_empty] at hlen
      exact absurd hlen.1 (by decide)
    simp [scheduleCronJob, hh, jsIdOrNull, hne]

/-- C6 witness: scheduling daily-report with an empty handler registry
returns null and changes nothing; with the handler registered it
creates the entry and returns the non-null scheduler id. -/
theorem scheduleCronJob_fail_fast_witness :
    scheduleCronJob (some "redis://localhost") [] [] [] "daily-report"
        { pattern := some "0 3 * * *" } = ([], [], none) ∧
    scheduleCronJob (some "redis://localhost")
        [("daily-report", fun _ => Except.ok ())] [] [] "daily-report"
        { pattern := some "0 3 * * *" } =
      (storeInsert [] QueueNames.CRON
        { id := "repeat:" ++ "daily-report", typeName := "daily-report",
          status := JobStatus.delayed, attemptsMade := 0, finishedOn := 0,
          opts := scheduleCronJobOptions },
       [] ++ [SchedulerEntry.mk "daily-report"
         (buildRepeatOptions { pattern := some "0 3 * * *" })],
       some ("repeat:" ++ "daily-report")) :=
  ⟨(scheduleCronJob_fail_fast (some "redis://localhost") [] [] []
      "daily-report" { pattern := some "0 3 * * *" }).1 (Or.inr rfl),
   (scheduleCronJob_fail_fast (some "redis://localhost")
      [("daily-report", fun _ => Except.ok ())] [] [] "daily-report"
      { pattern := some "0 3 * * *" }).2 "redis://localhost"
      (fun _ => Except.ok ()) rfl (by simp [List.lookup])⟩

/-! ## C2 — retryFailedJobs re-arms every failed job. -/

/-- C2: `retryFailedJobs` on a registered queue returns the number of
failed jobs in that queue, leaves that queue's jobs unchanged except
that every failed job becomes waiting with attemptsMade 0, and leaves
every other queue's jobs untouched. -/
theorem retryFailedJobs_spec (st : Store) (name : String)
    (jobs : List StoredJob) (hq : st.lookup name = some jobs) :
    (retryFailedJobs none st name).2 = countStatus jobs JobStatus.failed ∧
    ((retryFailedJobs none st name).1).lookup name =
      some (jobs.map fun j =>
        if j.status = JobStatus.failed then
          { j with status := JobStatus.waiting, attemptsMade := 0 }
        else j) ∧
    ∀ m, m ≠ name →
      ((retryFailedJobs none st name).1).lookup m = st.lookup m := by
  have hunfold : retryFailedJobs none st name =
      (storeUpdate st name (jobs.map fun j =>
         if j.status = JobStatus.failed then jobRetry j else j),
       (jobs.filter fun j =>
         decide (j.status ∈ [JobStatus.failed])).length) := by
    simp [retryFailedJobs, hq, getJobsByStatus]
  refine ⟨?_, ?_, ?_⟩
  · rw [hunfold]
    show (jobs.filter fun j =>
      decide (j.status ∈ [JobStatus.failed])).length = _
    unfold countStatus
    congr 1
    apply List.filter_congr
    intro j _
    simp
  · rw [hunfold]
    show (storeUpdate st name _).lookup name = _
    rw [lookup_storeUpdate_self st name jobs _ hq]
    rfl
  · intro m hm
    rw [hunfold]
    exact lookup_storeUpdate_ne st name m _ hm

/-- Sample failed webhook job, used by the concrete witnesses. -/
def sampleFailed : StoredJob :=
  { id := "j1", typeName := "deliver-webhook", status := JobStatus.failed,
    attemptsMade := 5, finishedOn := 100, opts := {} }

/-- Sample waiting job, used by the concrete witnesses. -/
def sampleWaiting : StoredJob :=
  { id := "j2", typeName := "deliver-webhook", status := JobStatus.waiting,
    attemptsMade := 0, finishedOn := 0, opts := {} }

/-- Sample completed job finished at time 0, used by the concrete
witnesses. -/
def sampleCompleted : StoredJob :=
  { id := "j3", typeName := "send-email", status := JobStatus.completed,
    attemptsMade := 1, finishedOn := 0, opts := {} }

/-- C2 witness: a webhook queue holding one failed and one waiting job,
and an email name left untouched. -/
theorem retryFailedJobs_spec_witness :
    (retryFailedJobs none [("webhook", [sampleFailed, sampleWaiting])]
        "webhook").2 = countStatus [sampleFailed, sampleWaiting]
        JobStatus.failed ∧
    ((retryFailedJobs none [("webhook", [sampleFailed, sampleWaiting])]
        "webhook").1).lookup "webhook" =
      some ([sampleFailed, sampleWaiting].map fun j =>
        if j.status = JobStatus.failed then
          { j with status := JobStatus.waiting, attemptsMade := 0 }
        else j) ∧
    ((retryFailedJobs none [("webhook", [sampleFailed, sampleWaiting])]
        "webhook").1).lookup "email" =
      (([("webhook", [sampleFailed, sampleWaiting])] : Store)).lookup
        "email" :=
  ⟨(retryFailedJobs_spec [("webhook", [sampleFailed, sampleWaiting])]
      "webhook" [sampleFailed, sampleWaiting] rfl).1,
   (retryFailedJobs_spec [("webhook", [sampleFailed, sampleWaiting])]
      "webhook" [sampleFailed, sampleWaiting] rfl).2.1,
   (retryFailedJobs_spec [("webhook", [sampleFailed, sampleWaiting])]
      "webhook" [sampleFailed, sampleWaiting] rfl).2.2 "email"
      (by decide)⟩

/-! ## C5 — cleanQueue and the per-call removal limit of 1000. -/

/-- The clean primitive keeps every job the eligibility test rejects. -/
theorem cleanJobs_keeps_not_eligible (p : StoredJob → Bool) :
    ∀ (limit : Nat) (js : List StoredJob) (j : StoredJob),
      j ∈ js → p j = false → j ∈ (cleanJobs limit p js).1 := by
  intro limit js
  induction js generalizing limit with
  | nil => intro j hj _; simp at hj
  | cons hd tl ih =>
    intro j hj hpj
    match limit with
    | 0 => simpa [cleanJobs] using hj
    | l + 1 =>
      rcases List.mem_cons.mp hj with h | h
      · subst h
        simp [cleanJobs, hpj]
      · cases hph : p hd with
        | true =>
          simp only [cleanJobs, hph, if_true]
          exact ih l j h hpj
        | false =>
          simp only [cleanJobs, hph, Bool.false_eq_true, if_false]
          exact List.mem_cons_of_mem hd (ih (l + 1) j h hpj)

/-- The clean primitive removes min(eligible, limit) jobs. -/
theorem cleanJobs_count (p : StoredJob → Bool) :
    ∀ (limit : Nat) (js : List StoredJob),
      (cleanJobs limit p js).2 = min (js.countP p) limit := by
  intro limit js
  induction js generalizing limit with
  | nil => simp [cleanJobs]
  | cons hd tl ih =>
    match limit with
    | 0 => simp [cleanJobs]
    | l + 1 =>
      cases hph : p hd with
      | true =>
        simp [cleanJobs, hph, List.countP_cons, ih l]
        omega
      | false =>
        simp [cleanJobs, hph, List.countP_cons, ih (l + 1)]

/-- After one clean pass, the number of still-eligible jobs is the
original eligible count minus the limit. -/
theorem cleanJobs_countP (p : StoredJob → Bool) :
    ∀ (limit : Nat) (js : List StoredJob),
      ((cleanJobs limit p js).1).countP p = js.countP p - limit := by
  intro limit js
  induction js generalizing limit with
  | nil => simp [cleanJobs]
  | cons hd tl ih =>
    match limit with
    | 0 => simp [cleanJobs]
    | l + 1 =>
      cases hph : p hd with
      | true =>
        simp [cleanJobs, hph, List.countP_cons, ih l]
      | false =>
        simp [cleanJobs, hph, List.countP_cons, ih (l + 1)]

/-- Counting a predicate over a replicated list. -/
theorem countP_replicate (p : StoredJob → Bool) (n : Nat) (j : StoredJob) :
    (List.replicate n j).countP p = if p j then n else 0 := by
  induction n with
  | zero => simp
  | succ k ih =>
    cases hpj : p j <;>
      simp [List.replicate_succ, List.countP_cons, ih, hpj]

/-- A queue holding 1001 completed jobs all old enough to clean: more
than one call's removal budget. -/
def bigStore : Store := [("email", List.replicate 1001 sampleCompleted)]

/-- C5 counterexample: on a queue with 1001 eligible completed jobs,
`cleanQueue` removes only 1000 (the per-call limit in the source), so
an immediately repeated call with the same arguments removes 1 more job
— not zero, contradicting idempotence and "removes every eligible
job". -/
theorem cleanQueue_not_idempotent_cex :
    (cleanQueue none
      ((cleanQueue none bigStore "email" JobStatus.completed 1000 5000).1)
      "email" JobStatus.completed 1000 5000).2 = 1 ∧
    (cleanQueue none
      ((cleanQueue none bigStore "email" JobStatus.completed 1000 5000).1)
      "email" JobStatus.completed 1000 5000).2 ≠ 0 := by
  have key : ∀ js : List StoredJob,
      (cleanQueue none
        ((cleanQueue none [("email", js)] "email" JobStatus.completed
          1000 5000).1) "email" JobStatus.completed 1000 5000).2 =
      min (js.countP (cleanEligible JobStatus.completed 1000 5000) - 1000)
        1000 := by
    intro js
    have hq0 : (([("email", js)] : Store)).lookup "email" = some js := by
      simp [List.lookup]
    have h1 : cleanQueue none [("email", js)] "email" JobStatus.completed
        1000 5000 =
        (storeUpdate [("email", js)] "email"
          (cleanJobs 1000 (cleanEligible JobStatus.completed 1000 5000)
            js).1,
         (cleanJobs 1000 (cleanEligible JobStatus.completed 1000 5000)
            js).2) := by
      simp [cleanQueue, hq0]
    have hlook : ((cleanQueue none [("email", js)] "email"
        JobStatus.completed 1000 5000).1).lookup "email" =
        some (cleanJobs 1000 (cleanEligible JobStatus.completed 1000 5000)
          js).1 := by
      rw [h1]
      exact lookup_storeUpdate_self _ "email" js _ hq0
    have h2 : (cleanQueue none
        ((cleanQueue none [("email", js)] "email" JobStatus.completed
          1000 5000).1) "email" JobStatus.completed 1000 5000).2 =
        min (((cleanJobs 1000 (cleanEligible JobStatus.completed 1000 5000)
          js).1).countP (cleanEligible JobStatus.completed 1000 5000))
          1000 := by
      generalize hst : (cleanQueue none [("email", js)] "email"
        JobStatus.completed 1000 5000).1 = st1 at hlook ⊢
      generalize hjs : (cleanJobs 1000
        (cleanEligible JobStatus.completed 1000 5000) js).1 = js1
        at hlook ⊢
      simp only [cleanQueue, hlook]
      exact cleanJobs_count _ 1000 js1
    rw [h2, cleanJobs_countP]
  have hp : cleanEligible JobStatus.completed 1000 5000 sampleCompleted
      = true := by decide
  have hval : (cleanQueue none
      ((cleanQueue none bigStore "email" JobStatus.completed 1000 5000).1)
      "email" JobStatus.completed 1000 5000).2 = 1 := by
    show (cleanQueue none
      ((cleanQueue none [("email", List.replicate 1001 sampleCompleted)]
        "email" JobStatus.completed 1000 5000).1)
      "email" JobStatus.completed 1000 5000).2 = 1
    rw [key (List.replicate 1001 sampleCompleted), countP_replicate, hp]
    norm_num
  exact ⟨hval, by rw [hval]; norm_num⟩

/-- C5 amended: `cleanQueue(queue, status, olderThanMs)` never removes
a job that is not eligible (in particular none younger than
olderThanMs), removes min(eligible, 1000) jobs — every eligible one up
to the source's per-call limit of 1000 — and an immediately repeated
call removes zero further jobs provided at most 1000 jobs were eligible
to begin with. -/
theorem cleanQueue_amended (st : Store) (name : String)
    (jobs : List StoredJob) (status : JobStatus) (olderThanMs now : Nat)
    (hq : st.lookup name = some jobs) :
    (∀ j ∈ jobs, cleanEligible status olderThanMs now j = false →
      j ∈ ((((cleanQueue none st name status olderThanMs now).1).lookup
        name).getD [])) ∧
    (cleanQueue none st name status olderThanMs now).2 =
      min (jobs.countP (cleanEligible status olderThanMs now)) 1000 ∧
    (jobs.countP (cleanEligible status olderThanMs now) ≤ 1000 →
      (cleanQueue none
        ((cleanQueue none st name status olderThanMs now).1)
        name status olderThanMs now).2 = 0) := by
  have hunfold : cleanQueue none st name status olderThanMs now =
      (storeUpdate st name
        (cleanJobs 1000 (cleanEligible status olderThanMs now) jobs).1,
       (cleanJobs 1000 (cleanEligible status olderThanMs now) jobs).2) := by
    simp [cleanQueue, hq]
  have hlook : ((cleanQueue none st name status olderThanMs
      now).1).lookup name =
      some (cleanJobs 1000 (cleanEligible status olderThanMs now)
        jobs).1 := by
    rw [hunfold]
    exact lookup_storeUpdate_self st name jobs _ hq
  refine ⟨?_, ?_, ?_⟩
  · intro j hj hne
    rw [hlook]
    simpa using cleanJobs_keeps_not_eligible _ 1000 jobs j hj hne
  · rw [hunfold]
    exact cleanJobs_count _ 1000 jobs
  · intro hle
    have h2 : (cleanQueue none
        ((cleanQueue none st name status olderThanMs now).1)
        name status olderThanMs now).2 =
        min (((cleanJobs 1000 (cleanEligible status olderThanMs now)
          jobs).1).countP (cleanEligible status olderThanMs now)) 1000 := by
      generalize hst : (cleanQueue none st name status olderThanMs
        now).1 = st1 at hlook ⊢
      generalize hjs : (cleanJobs 1000
        (cleanEligible status olderThanMs now) jobs).1 = js1 at hlook ⊢
      simp only [cleanQueue, hlook]
      exact cleanJobs_count _ 1000 js1
    rw [h2, cleanJobs_countP]
    omega

/-- Young completed job (finished at 4500, within the retention
window at now = 5000 with olderThanMs = 1000). -/
def sampleYoung : StoredJob :=
  { id := "j4", typeName := "send-email", status := JobStatus.completed,
    attemptsMade := 1, finishedOn := 4500, opts := {} }

/-- C5 amended witness: a queue with one young and one old completed
job; the young one survives, one job is removed, and a second call
removes zero. -/
theorem cleanQueue_amended_witness :
    sampleYoung ∈ ((((cleanQueue none
      [("email", [sampleYoung, sampleCompleted])] "email"
      JobStatus.completed 1000 5000).1).lookup "email").getD []) ∧
    (cleanQueue none [("email", [sampleYoung, sampleCompleted])] "email"
      JobStatus.completed 1000 5000).2 =
      min ([sampleYoung, sampleCompleted].countP
        (cleanEligible JobStatus.completed 1000 5000)) 1000 ∧
    (cleanQueue none
      ((cleanQueue none [("email", [sampleYoung, sampleCompleted])]
        "email" JobStatus.completed 1000 5000).1)
      "email" JobStatus.completed 1000 5000).2 = 0 :=
  ⟨(cleanQueue_amended [("email", [sampleYoung, sampleCompleted])]
      "email" [sampleYoung, sampleCompleted] JobStatus.completed 1000 5000
      rfl).1 sampleYoung (by decide) (by decide),
   (cleanQueue_amended [("email", [sampleYoung, sampleCompleted])]
      "email" [sampleYoung, sampleCompleted] JobStatus.completed 1000 5000
      rfl).2.1,
   (cleanQueue_amended [("email", [sampleYoung, sampleCompleted])]
      "email" [sampleYoung, sampleCompleted] JobStatus.completed 1000 5000
      rfl).2.2 (by decide)⟩

/-! ## C9 — transient store errors in admin operations. -/

/-- C9 counterexample: a transient store error (ETIMEDOUT) during
retry-failed / clean / stats yields exactly the same observable result
as a successful call on an empty queue — 0, 0 and all-zero stats — so
the error is not surfaced to the caller in a way distinguishable from a
successful empty result (a genuine success on the same store returns 1
instead). -/
theorem admin_store_error_indistinguishable_cex :
    retryFailedJobs (some "ETIMEDOUT") [("email", [sampleFailed])]
      "email" = ([("email", [sampleFailed])], 0) ∧
    retryFailedJobs none [("email", ([] : List StoredJob))] "email" =
      ([("email", [])], 0) ∧
    (retryFailedJobs (some "ETIMEDOUT") [("email", [sampleFailed])]
      "email").2 =
      (retryFailedJobs none [("email", ([] : List StoredJob))]
        "email").2 ∧
    (retryFailedJobs none [("email", [sampleFailed])] "email").2 = 1 ∧
    (cleanQueue (some "ETIMEDOUT") [("email", [sampleCompleted])] "email"
      JobStatus.completed 0 5000).2 =
      (cleanQueue none [("email", ([] : List StoredJob))] "email"
        JobStatus.completed 0 5000).2 ∧
    getAllQueueStats (some "ETIMEDOUT") [("email", [sampleFailed])] =
      getAllQueueStats none [("email", ([] : List StoredJob))] := by
  refine ⟨?_, ?_, ?_, ?_, ?_, ?_⟩ <;> rfl

/-- C9 amended: a transient store error during retry-failed, clean or
stats is caught and logged; the operation returns its zero/empty
default — indistinguishable from a successful call on an empty queue —
and never throws, so the process does not crash. -/
theorem admin_store_error_swallowed (st : Store) (name : String)
    (e : String) (status : JobStatus) (olderThanMs now : Nat) :
    retryFailedJobs (some e) st name = (st, 0) ∧
    cleanQueue (some e) st name status olderThanMs now = (st, 0) ∧
    getAllQueueStats (some e) st = st.map fun nq => zeroStats nq.1 := by
  refine ⟨?_, ?_, ?_⟩
  · unfold retryFailedJobs
    cases st.lookup name <;> simp [getJobsByStatus]
  · unfold cleanQueue
    cases st.lookup name <;> simp
  · simp [getAllQueueStats, getJobCounts]

end QueueSys
